import Mathlib

/-!
Verification of the DjangoMaster store backend: a shallow embedding of the
order-placement workflow (`store/serializers.py`, `store/views.py`), the
cart-item operations, the generic tagging queries (`tags/models.py`) and the
user-signal handler (`store/signals/handlers.py`), together with proofs of the
specification's testable properties.

Database tables are embedded as lists of rows; each serializer/view operation
becomes a pure function threading the database state explicitly.  Django's
`transaction.atomic` becomes the `runAtomic` combinator: on any error raised
inside the block the original state is returned.  Python `Decimal` values are
embedded exactly as integer coefficient/exponent pairs with context-precision
rounding (28 significant digits, round-half-even), so that the `Decimal(1.1)`
constant of `ProductSerializer.calculate_tax` is represented by the exact
value of the binary64 float `1.1`.
-/

/-! ## Python `Decimal` arithmetic -/

/-- A Python `Decimal`: value `c * 10 ^ e` with integer coefficient `c` and
exponent `e` (as produced by `DecimalField(max_digits=6, decimal_places=2)`,
where `e = -2`). -/
structure Dec where
  c : Int
  e : Int
deriving DecidableEq, Repr

/-- The exact rational value of a `Dec`. -/
def Dec.toRat (d : Dec) : ℚ :=
  if 0 ≤ d.e then (d.c : ℚ) * (10 : ℚ) ^ d.e.toNat
  else (d.c : ℚ) / (10 : ℚ) ^ (-d.e).toNat

/-- Number of decimal digits of a coefficient (`0` has one digit). -/
def numDigits (n : Nat) : Nat := (Nat.toDigits 10 n).length

/-- Divide `c` by `10 ^ k`, rounding half to even (Python's default
`ROUND_HALF_EVEN`). -/
def roundHalfEvenDiv (c k : Nat) : Nat :=
  let d := 10 ^ k
  let q := c / d
  let r := c % d
  if d < 2 * r then q + 1
  else if 2 * r < d then q
  else if q % 2 = 0 then q else q + 1

/-- Round a `Dec` to at most `p` significant digits, half to even, carrying
into the exponent when rounding overflows to `p + 1` digits (Python's
context rounding with `prec = p`). -/
def Dec.roundPrec (p : Nat) (d : Dec) : Dec :=
  let n := numDigits d.c.natAbs
  if n ≤ p then d
  else
    let k := n - p
    let m := roundHalfEvenDiv d.c.natAbs k
    let sgn : Int → Int := fun i => if d.c < 0 then -i else i
    if numDigits m ≤ p then ⟨sgn m, d.e + k⟩
    else ⟨sgn (m / 10), d.e + k + 1⟩

/-- Python `Decimal` multiplication under the default context
(28 significant digits, round half even): exact product, then rounding. -/
def decMul (a b : Dec) : Dec :=
  Dec.roundPrec 28 ⟨a.c * b.c, a.e + b.e⟩

/-- The Python value `Decimal(1.1)`: the `Decimal` image of the binary64
float written `1.1`, whose exact value is `2476979795053773 / 2 ^ 51 =
1.100000000000000088817841970012523233890533447265625`.  This is the constant
used by `ProductSerializer.calculate_tax`. -/
def dec_1_1 : Dec :=
  ⟨1100000000000000088817841970012523233890533447265625, -51⟩

/-- `ProductSerializer.calculate_tax` (`store/serializers.py`): returns
`product.unit_price * Decimal(1.1)`. -/
def calculate_tax (unit_price : Dec) : Dec :=
  decMul unit_price dec_1_1

/-! ## Store data model (`store/models.py`) -/

/-- A row of `store_product` (fields used by the claims). -/
structure ProductRow where
  id : Nat
  unit_price : Dec
  collection_id : Nat
deriving DecidableEq, Repr

/-- A row of `store_collection`. -/
structure CollectionRow where
  id : Nat
  title : String
deriving DecidableEq, Repr

/-- A row of `store_customer`: one-to-one link to a user. -/
structure CustomerRow where
  id : Nat
  user_id : Nat
deriving DecidableEq, Repr

/-- Payment status of an order (`Order.PAYMENT_STATUS_CHOICES`). -/
inductive PayStatus where
  | pending
  | complete
  | failed
deriving DecidableEq, Repr

/-- A row of `store_order` (`placed_at` omitted: wall-clock time). -/
structure OrderRow where
  id : Nat
  customer_id : Nat
  payment_status : PayStatus
deriving DecidableEq, Repr

/-- A row of `store_orderitem`: `unit_price` is a stored column, captured at
order creation. -/
structure OrderItemRow where
  order_id : Nat
  product_id : Nat
  quantity : Nat
  unit_price : Dec
deriving DecidableEq, Repr

/-- A row of `store_cartitem`. -/
structure CartItemRow where
  id : Nat
  cart_id : Nat
  product_id : Nat
  quantity : Nat
deriving DecidableEq, Repr

/-- The database state: one list of rows per table.  Cart ids (UUIDs in the
source) are opaque; we embed them as `Nat`.  `nextOrderId` / `nextCartItemId`
model the auto-increment primary-key sequences. -/
structure DB where
  products : List ProductRow
  collections : List CollectionRow
  customers : List CustomerRow
  users : List Nat
  carts : List Nat
  cartItems : List CartItemRow
  orders : List OrderRow
  orderItems : List OrderItemRow
  nextOrderId : Nat
  nextCartItemId : Nat
  nextCustomerId : Nat
deriving DecidableEq, Repr

/-- `Product.objects.get(pk=pid)` as a partial lookup. -/
def findProduct (db : DB) (pid : Nat) : Option ProductRow :=
  db.products.find? (fun p => p.id == pid)

/-! ## Error taxonomy (spec §7)

`invalid` is DRF's `serializers.ValidationError` (HTTP 400); `notFound` is
DRF's `NotFound` (HTTP 404); `doesNotExist` is an unhandled Django
`DoesNotExist` exception; `dbError` stands for a database-level failure such
as a constraint violation raised inside the transaction. -/

inductive ApiError where
  | invalid (msg : String)
  | notFound (msg : String)
  | doesNotExist
  | dbError
deriving DecidableEq, Repr

/-- `true` exactly when a result is a `NotFound` failure. -/
def isNotFoundResult (r : Except ApiError Nat) : Bool :=
  match r with
  | .error (.notFound _) => true
  | _ => false

/-! ## Transactions

`transaction.atomic` (`django.db.transaction`): run the body against the
current state; if it raises, every mutation is rolled back and the original
state is observed. -/

/-- Semantics of `with transaction.atomic():` around a state-mutating body. -/
def runAtomic (body : DB → Except ApiError (DB × Nat)) (db : DB) :
    DB × Except ApiError Nat :=
  match body db with
  | .ok (db2, a) => (db2, .ok a)
  | .error e => (db, .error e)

/-- Injection point for a database-level failure inside the order
transaction: during order-item construction, during the bulk insert, or
during the cart deletion (spec steps 4–6). -/
inductive FailStep where
  | construct
  | bulkInsert
  | deleteCart
deriving DecidableEq, Repr

/-! ## Order placement (`CreateOrderSerializer`, `store/serializers.py`) -/

/-- `CreateOrderSerializer.validate_cart_id`: a missing cart and an empty
cart each raise `serializers.ValidationError` (DRF `invalid`, HTTP 400). -/
def validate_cart_id (db : DB) (cart_id : Nat) : Option ApiError :=
  if !(db.carts.contains cart_id) then
    some (.invalid "No cart with the given ID exists.")
  else if db.cartItems.countP (fun ci => ci.cart_id == cart_id) == 0 then
    some (.invalid "The cart is empty.")
  else none

/-- The order-item list comprehension inside `CreateOrderSerializer.save`:
for each cart item, one `OrderItem(order=order, product=item.product,
unit_price=item.product.unit_price, quantity=item.quantity)`.  The product is
resolved through the cart item's foreign key (`select_related("product")`);
a dangling reference surfaces as a database error. -/
def buildOrderItems (prods : List ProductRow) (oid : Nat) :
    List CartItemRow → Except ApiError (List OrderItemRow)
  | [] => .ok []
  | ci :: rest =>
    match prods.find? (fun p => p.id == ci.product_id) with
    | none => .error .dbError
    | some p =>
      match buildOrderItems prods oid rest with
      | .error e => .error e
      | .ok tail => .ok (⟨oid, ci.product_id, ci.quantity, p.unit_price⟩ :: tail)

/-- The body of `CreateOrderSerializer.save` (everything inside
`with transaction.atomic():`), with an optional injected database failure
at step 4, 5 or 6.  Steps: resolve the customer, create the order (payment
status `Pending`), load the cart items with their products, build the order
items, bulk-insert them, delete the cart (cascading its items), emit the
`order_created` signal (no database effect), return the order. -/
def createOrderBody (fail : Option FailStep) (user_id cart_id : Nat) (db : DB) :
    Except ApiError (DB × Nat) :=
  match db.customers.find? (fun c => c.user_id == user_id) with
  | none => .error .doesNotExist
  | some customer =>
    let oid := db.nextOrderId
    let order : OrderRow := ⟨oid, customer.id, .pending⟩
    let db1 : DB := { db with orders := db.orders ++ [order], nextOrderId := oid + 1 }
    let cart_items := db1.cartItems.filter (fun ci => ci.cart_id == cart_id)
    if fail == some .construct then .error .dbError
    else
      match buildOrderItems db1.products oid cart_items with
      | .error e => .error e
      | .ok order_items =>
        if fail == some .bulkInsert then .error .dbError
        else
          let db2 : DB := { db1 with orderItems := db1.orderItems ++ order_items }
          if fail == some .deleteCart then .error .dbError
          else
            let db3 : DB := { db2 with
              carts := db2.carts.filter (fun c => c != cart_id),
              cartItems := db2.cartItems.filter (fun ci => ci.cart_id != cart_id) }
            .ok (db3, oid)

/-- `OrderViewSet.create` (`store/views.py`): run the serializer validation
(`is_valid(raise_exception=True)`, before any mutation), then
`CreateOrderSerializer.save` inside its transaction.  Returns the final
database state and either the new order's id or the error. -/
def createOrder (fail : Option FailStep) (db : DB) (user_id cart_id : Nat) :
    DB × Except ApiError Nat :=
  match validate_cart_id db cart_id with
  | some e => (db, .error e)
  | none => runAtomic (createOrderBody fail user_id cart_id) db

/-- `UPDATE store_product SET unit_price = … WHERE id = …`: the product
update endpoint (`ProductViewSet` + `ProductSerializer.save`) writes only the
`store_product` row; no other table is touched. -/
def updateProductPrice (db : DB) (pid : Nat) (newPrice : Dec) : DB :=
  { db with products :=
      db.products.map (fun p => if p.id == pid then { p with unit_price := newPrice } else p) }

/-! ## Cart-item operations (`store/serializers.py`, `store/views.py`) -/

/-- `AddCartItemSerializer`: `validate_product_id` (the product must exist)
followed by `save` — if a cart item with the same `(cart_id, product_id)`
exists its quantity is incremented and the row saved by primary key,
otherwise a new row is created. -/
def addCartItem (db : DB) (cart_id product_id quantity : Nat) :
    Except ApiError (DB × CartItemRow) :=
  if (findProduct db product_id).isNone then
    .error (.invalid "No product with the given ID exists.")
  else
    match db.cartItems.find? (fun ci => ci.cart_id == cart_id && ci.product_id == product_id) with
    | some cart_item =>
      let updated : CartItemRow := { cart_item with quantity := cart_item.quantity + quantity }
      .ok ({ db with cartItems :=
               db.cartItems.map (fun r => if r.id == cart_item.id then updated else r) },
           updated)
    | none =>
      let created : CartItemRow := ⟨db.nextCartItemId, cart_id, product_id, quantity⟩
      .ok ({ db with cartItems := db.cartItems ++ [created],
                     nextCartItemId := db.nextCartItemId + 1 },
           created)

/-- `UpdateCartItemSerializer` via `CartItemViewSet` PATCH: set the quantity
of the cart item with the given primary key. -/
def updateCartItemQuantity (db : DB) (item_id quantity : Nat) : DB :=
  { db with cartItems :=
      db.cartItems.map (fun r => if r.id == item_id then { r with quantity := quantity } else r) }

/-- `CartItemViewSet` DELETE: remove the cart item with the given primary
key. -/
def deleteCartItem (db : DB) (item_id : Nat) : DB :=
  { db with cartItems := db.cartItems.filter (fun r => r.id != item_id) }

/-- The `unique_together = [["cart", "product"]]` invariant of `CartItem`:
no two distinct rows share the same `(cart, product)` pair. -/
def UniqPairs (l : List CartItemRow) : Prop :=
  l.Pairwise (fun a b => ¬(a.cart_id = b.cart_id ∧ a.product_id = b.product_id))

/-! ## Destroy guards (`store/views.py`) -/

/-- `ProductViewSet.destroy`: if any `OrderItem` references the product,
respond `403 Forbidden` without deleting; otherwise delete the product
(`404` if it does not exist; deletion cascades to cart items). -/
def destroyProduct (db : DB) (pid : Nat) : Nat × DB :=
  if 0 < db.orderItems.countP (fun oi => oi.product_id == pid) then
    (403, db)
  else if (findProduct db pid).isNone then
    (404, db)
  else
    (204, { db with products := db.products.filter (fun p => p.id != pid),
                    cartItems := db.cartItems.filter (fun ci => ci.product_id != pid) })

/-- `CollectionViewSet.destroy`: if any `Product` references the collection,
respond `403 Forbidden` without deleting; otherwise delete the collection
(`404` if it does not exist). -/
def destroyCollection (db : DB) (cid : Nat) : Nat × DB :=
  if (db.products.find? (fun p => p.collection_id == cid)).isSome then
    (403, db)
  else if (db.collections.find? (fun c => c.id == cid)).isNone then
    (404, db)
  else
    (204, { db with collections := db.collections.filter (fun c => c.id != cid) })

/-! ## User signal (`store/signals/handlers.py`) -/

/-- Saving a new user: the `post_save` signal fires with `created=True` and
`create_customer_for_new_user` creates one `Customer` linked to the user. -/
def createUser (db : DB) (user_id : Nat) : DB :=
  { db with users := db.users ++ [user_id],
            customers := db.customers ++ [⟨db.nextCustomerId, user_id⟩],
            nextCustomerId := db.nextCustomerId + 1 }

/-- Saving an existing user: the `post_save` signal fires with
`created=False`, so `create_customer_for_new_user` does nothing — no
customer row is touched. -/
def updateUser (db : DB) (_user_id : Nat) : DB :=
  db

/-! ## Generic tagging (`tags/models.py`) -/

/-- A row of `tags_tag`. -/
structure TagRow where
  id : Nat
  label : String
deriving DecidableEq, Repr

/-- A row of `tags_taggeditem`: tag reference plus the generic
`(content_type, object_id)` pair. -/
structure TaggedItemRow where
  id : Nat
  tag_id : Nat
  content_type : Nat
  object_id : Nat
deriving DecidableEq, Repr

/-- The tagging tables. -/
structure TagsDB where
  tags : List TagRow
  taggedItems : List TaggedItemRow
deriving Repr

/-- `TaggedItemManager.get_tags_for(obj_type, obj_id)`: filter the tagged
items by `(content_type, object_id)` — `obj_type` arrives here already
resolved to its content-type key by `ContentType.objects.get_for_model` —
and eagerly join each row with its `Tag` (`select_related("tag")`). -/
def get_tags_for (db : TagsDB) (content_type object_id : Nat) :
    List (TaggedItemRow × Option TagRow) :=
  (db.taggedItems.filter
      (fun ti => ti.content_type == content_type && ti.object_id == object_id)).map
    (fun ti => (ti, db.tags.find? (fun t => t.id == ti.tag_id)))

/-! ## Sample databases for concrete instantiations -/

/-- The empty database. -/
def emptyDB : DB :=
  ⟨[], [], [], [], [], [], [], [], 1, 1, 1⟩

/-- A database with two products, one customer (user 1), and cart `5`
holding 2 units of product 1 and 1 unit of product 2. -/
def dbSample : DB :=
  { products := [⟨1, ⟨1000, -2⟩, 1⟩, ⟨2, ⟨500, -2⟩, 1⟩],
    collections := [⟨1, "summer"⟩],
    customers := [⟨1, 1⟩],
    users := [1],
    carts := [5],
    cartItems := [⟨1, 5, 1, 2⟩, ⟨2, 5, 2, 1⟩],
    orders := [],
    orderItems := [],
    nextOrderId := 1,
    nextCartItemId := 3,
    nextCustomerId := 2 }

/-- A database where product 1 (in collection 1) is referenced by an order
item. -/
def dbRef : DB :=
  { emptyDB with
    products := [⟨1, ⟨1000, -2⟩, 1⟩],
    collections := [⟨1, "summer"⟩],
    customers := [⟨1, 1⟩],
    orders := [⟨1, 1, .pending⟩],
    orderItems := [⟨1, 1, 2, ⟨1000, -2⟩⟩],
    nextOrderId := 2 }

/-- A database with an existing empty cart `5`. -/
def cartOnlyDB : DB :=
  { emptyDB with carts := [5] }

/-! ## Claim theorems -/

/-- **C2.** Order placement is atomic: whenever `createOrder` fails — at any
injected failure point during order-item construction, bulk insert or cart
deletion, or on any other error inside the transaction — the resulting
database state is exactly the initial one: the cart and its items are
intact and no order or order item is visible. -/
theorem createOrder_failure_rolls_back (fail : Option FailStep) (db : DB)
    (user_id cart_id : Nat) (e : ApiError)
    (h : (createOrder fail db user_id cart_id).2 = Except.error e) :
    (createOrder fail db user_id cart_id).1 = db := by
  unfold createOrder at h ⊢
  cases hv : validate_cart_id db cart_id with
  | some e2 => simp [hv]
  | none =>
    simp only [hv]
    unfold runAtomic
    cases hb : createOrderBody fail user_id cart_id db with
    | ok r => rw [hv] at h; unfold runAtomic at h; rw [hb] at h; simp at h
    | error e2 => simp

/-- Witness for C2: injecting a failure at the bulk insert on a populated
database yields an error, and the database is returned unchanged. -/
theorem createOrder_failure_rolls_back_witness :
    (createOrder (some .bulkInsert) dbSample 1 5).2 = Except.error ApiError.dbError ∧
    (createOrder (some .bulkInsert) dbSample 1 5).1 = dbSample :=
  ⟨rfl, createOrder_failure_rolls_back (some .bulkInsert) dbSample 1 5 .dbError rfl⟩

/-- **C3, counterexample.** Placing an order with a cart id that matches no
cart fails with a DRF `ValidationError` (the `invalid` / HTTP 400 category),
not with `NotFound`: the claim's error category is wrong on the code. -/
theorem createOrder_missing_cart_invalid_cex :
    (createOrder none emptyDB 0 7).2 =
      Except.error (ApiError.invalid "No cart with the given ID exists.") ∧
    isNotFoundResult (createOrder none emptyDB 0 7).2 = false :=
  ⟨rfl, rfl⟩

/-- **C3, amended.** For every cart identifier that does not correspond to an
existing cart, placing an order fails with a validation (`invalid`) error —
raised by `CreateOrderSerializer.validate_cart_id` before any mutation — and
the database is returned unchanged. -/
theorem createOrder_missing_cart_fails_invalid (fail : Option FailStep) (db : DB)
    (user_id cart_id : Nat) (h : cart_id ∉ db.carts) :
    createOrder fail db user_id cart_id =
      (db, Except.error (ApiError.invalid "No cart with the given ID exists.")) := by
  simp [createOrder, validate_cart_id, h]

/-- Witness for C3's amended theorem at a concrete missing cart id. -/
theorem createOrder_missing_cart_fails_invalid_witness :
    createOrder none emptyDB 0 7 =
      (emptyDB, Except.error (ApiError.invalid "No cart with the given ID exists.")) :=
  createOrder_missing_cart_fails_invalid none emptyDB 0 7 (by decide)

/-- **C5.** Placing an order from an existing cart with zero cart items
fails with a validation (`invalid`) error and the database is returned
unchanged: no order or order item is created and the cart is not deleted. -/
theorem createOrder_empty_cart_fails_invalid (fail : Option FailStep) (db : DB)
    (user_id cart_id : Nat) (hmem : cart_id ∈ db.carts)
    (hempty : db.cartItems.countP (fun ci => ci.cart_id == cart_id) = 0) :
    createOrder fail db user_id cart_id =
      (db, Except.error (ApiError.invalid "The cart is empty.")) := by
  simp [createOrder, validate_cart_id, hmem, hempty]

/-- Witness for C5 at a concrete empty cart. -/
theorem createOrder_empty_cart_fails_invalid_witness :
    createOrder none cartOnlyDB 0 5 =
      (cartOnlyDB, Except.error (ApiError.invalid "The cart is empty.")) :=
  createOrder_empty_cart_fails_invalid none cartOnlyDB 0 5 (by decide) rfl

/-- **C7, counterexample.** The destroy guards respond with HTTP `403`
(Forbidden), not with a conflict (`409`) response, when the product (resp.
collection) is referenced: the claim's response category is wrong on the
code. -/
theorem destroy_guard_returns_403_cex :
    (destroyProduct dbRef 1).1 = 403 ∧ (destroyCollection dbRef 1).1 = 403 ∧
    (403 : Nat) ≠ 409 :=
  ⟨rfl, rfl, by decide⟩

/-- **C7, amended.** Deleting a product referenced by at least one order item
is rejected with an HTTP `403` (Forbidden) response and the database — in
particular the product — is unchanged; likewise, and independently, deleting
a collection referenced by at least one product is rejected with `403` and
the database is unchanged. -/
theorem destroy_referenced_forbidden (db : DB) (pid cid : Nat) :
    (0 < db.orderItems.countP (fun oi => oi.product_id == pid) →
      destroyProduct db pid = (403, db)) ∧
    ((db.products.find? (fun p => p.collection_id == cid)).isSome = true →
      destroyCollection db cid = (403, db)) := by
  constructor
  · intro hp
    simp [destroyProduct, hp]
  · intro hc
    simp [destroyCollection, hc]

/-- Witness for C7's amended theorem: product 1 is referenced by an order
item and collection 1 is referenced by product 1. -/
theorem destroy_referenced_forbidden_witness :
    destroyProduct dbRef 1 = (403, dbRef) ∧ destroyCollection dbRef 1 = (403, dbRef) :=
  ⟨(destroy_referenced_forbidden dbRef 1 1).1 (by decide),
   (destroy_referenced_forbidden dbRef 1 1).2 rfl⟩

/-- **C8.** `calculate_tax` multiplies by `Decimal(1.1)` — the `Decimal`
image of the binary64 float `1.1` — so on the failing input
`unit_price = Decimal("10.00")` it returns
`Decimal("11.00000000000000088817841970")`, which differs from the exact
`unit_price * 11 / 10 = 11`: the code contradicts its own docstring
("including a 10% tax"). -/
theorem calculate_tax_at_ten :
    calculate_tax ⟨1000, -2⟩ = ⟨1100000000000000088817841970, -26⟩ ∧
    Dec.toRat (calculate_tax ⟨1000, -2⟩) ≠ Dec.toRat ⟨1000, -2⟩ * (11 / 10 : ℚ) := by
  refine ⟨rfl, ?_⟩
  have h1 : calculate_tax ⟨1000, -2⟩ = ⟨1100000000000000088817841970, -26⟩ := rfl
  rw [h1]
  norm_num [Dec.toRat]
  have e1 : Int.toNat 26 = 26 := rfl
  have e2 : Int.toNat 2 = 2 := rfl
  rw [e1, e2]
  norm_num

/-! ### Cart-item uniqueness lemmas -/

/-- Mapping a function that preserves the `(cart, product)` pair of every
member preserves `UniqPairs`. -/
theorem uniqPairs_map (l : List CartItemRow) (f : CartItemRow → CartItemRow)
    (hf : ∀ r ∈ l, (f r).cart_id = r.cart_id ∧ (f r).product_id = r.product_id)
    (hu : UniqPairs l) : UniqPairs (l.map f) := by
  unfold UniqPairs at hu ⊢
  rw [List.pairwise_map]
  refine hu.imp_of_mem ?_
  intro a b ha hb hr hcontra
  obtain ⟨ha1, ha2⟩ := hf a ha
  obtain ⟨hb1, hb2⟩ := hf b hb
  apply hr
  constructor
  · rw [← ha1, ← hb1]; exact hcontra.1
  · rw [← ha2, ← hb2]; exact hcontra.2

/-- Appending a row whose `(cart, product)` pair occurs nowhere in `l`
preserves `UniqPairs`. -/
theorem uniqPairs_append_singleton (l : List CartItemRow) (x : CartItemRow)
    (hu : UniqPairs l)
    (hx : ∀ a ∈ l, ¬(a.cart_id = x.cart_id ∧ a.product_id = x.product_id)) :
    UniqPairs (l ++ [x]) := by
  unfold UniqPairs at hu ⊢
  rw [List.pairwise_append]
  refine ⟨hu, List.pairwise_singleton _ _, ?_⟩
  intro a ha b hb
  simp only [List.mem_singleton] at hb
  subst hb
  exact hx a ha

/-- Filtering preserves `UniqPairs`. -/
theorem uniqPairs_filter (l : List CartItemRow) (q : CartItemRow → Bool)
    (hu : UniqPairs l) : UniqPairs (l.filter q) :=
  List.Pairwise.sublist (List.filter_sublist l) hu

/-- **C6.** Cart-item operations preserve the "at most one `CartItem` per
`(cart, product)` pair" invariant, and adding a product already present in
the cart increments the existing row's quantity by the added amount instead
of creating a second row (same number of rows, and the pair's row now holds
the old quantity plus the added quantity). -/
theorem cartItem_ops_unique (db : DB) (cart_id product_id quantity item_id : Nat)
    (hids : (db.cartItems.map (fun r => r.id)).Nodup)
    (hu : UniqPairs db.cartItems) :
    (∀ db2 r, addCartItem db cart_id product_id quantity = .ok (db2, r) →
        UniqPairs db2.cartItems) ∧
    UniqPairs (updateCartItemQuantity db item_id quantity).cartItems ∧
    UniqPairs (deleteCartItem db item_id).cartItems ∧
    (∀ ci, db.cartItems.find?
        (fun r => r.cart_id == cart_id && r.product_id == product_id) = some ci →
      ∀ db2 r, addCartItem db cart_id product_id quantity = .ok (db2, r) →
        db2.cartItems.length = db.cartItems.length ∧
        ∃ r2 ∈ db2.cartItems, r2.cart_id = cart_id ∧ r2.product_id = product_id ∧
          r2.quantity = ci.quantity + quantity) := by
  refine ⟨?_, ?_, ?_, ?_⟩
  · intro db2 r h
    unfold addCartItem at h
    by_cases hfp : (findProduct db product_id).isNone
    · rw [if_pos hfp] at h
      exact absurd h (by simp)
    · rw [if_neg hfp] at h
      cases hfind : db.cartItems.find?
          (fun ciq => ciq.cart_id == cart_id && ciq.product_id == product_id) with
      | some ci =>
        rw [hfind] at h
        simp only [Except.ok.injEq, Prod.mk.injEq] at h
        obtain ⟨hdb2, hr⟩ := h
        subst hdb2
        refine uniqPairs_map _ _ ?_ hu
        intro rr hrr
        by_cases hid : (rr.id == ci.id) = true
        · have heq : rr = ci :=
            List.inj_on_of_nodup_map hids hrr (List.mem_of_find?_eq_some hfind)
              (by simpa using hid)
          subst heq
          simp [hid]
        · simp [hid]
      | none =>
        rw [hfind] at h
        simp only [Except.ok.injEq, Prod.mk.injEq] at h
        obtain ⟨hdb2, hr⟩ := h
        subst hdb2
        refine uniqPairs_append_singleton _ _ hu ?_
        intro a ha hcontra
        have hnone := List.find?_eq_none.mp hfind a ha
        apply hnone
        have h1 : a.cart_id = cart_id := hcontra.1
        have h2 : a.product_id = product_id := hcontra.2
        simp [h1, h2]
  · refine uniqPairs_map _ _ ?_ hu
    intro rr _
    by_cases hid : (rr.id == item_id) = true <;> simp [hid]
  · exact uniqPairs_filter _ _ hu
  · intro ci hfind db2 r h
    unfold addCartItem at h
    by_cases hfp : (findProduct db product_id).isNone
    · rw [if_pos hfp] at h
      exact absurd h (by simp)
    · rw [if_neg hfp, hfind] at h
      simp only [Except.ok.injEq, Prod.mk.injEq] at h
      obtain ⟨hdb2, hr⟩ := h
      subst hdb2
      constructor
      · simp
      · have hmem := List.mem_of_find?_eq_some hfind
        have hpred := List.find?_some hfind
        simp only [Bool.and_eq_true, beq_iff_eq] at hpred
        refine ⟨{ ci with quantity := ci.quantity + quantity }, ?_, hpred.1, hpred.2, rfl⟩
        exact List.mem_map.mpr ⟨ci, hmem, by simp⟩

/-- The database state after `addCartItem dbSample 5 1 3` merges into the
existing row for product 1. -/
def dbSampleAdded : DB :=
  { dbSample with cartItems := [⟨1, 5, 1, 5⟩, ⟨2, 5, 2, 1⟩] }

/-- Witness for C6 on `dbSample`: adding 3 more units of product 1 to cart 5
(already holding 2) keeps uniqueness and the row count, as do quantity
update and deletion. -/
theorem cartItem_ops_unique_witness :
    UniqPairs dbSampleAdded.cartItems ∧
    UniqPairs (updateCartItemQuantity dbSample 1 3).cartItems ∧
    UniqPairs (deleteCartItem dbSample 1).cartItems ∧
    dbSampleAdded.cartItems.length = dbSample.cartItems.length := by
  have h := cartItem_ops_unique dbSample 5 1 3 1 (by decide)
    (by unfold UniqPairs; decide)
  exact ⟨h.1 dbSampleAdded ⟨1, 5, 1, 5⟩ rfl, h.2.1, h.2.2.1,
    (h.2.2.2 ⟨1, 5, 1, 2⟩ rfl dbSampleAdded ⟨1, 5, 1, 5⟩ rfl).1⟩

/-- **C10.** Creating a user fires the `post_save` handler, which creates
exactly one customer linked to that user (when none existed, as enforced by
the one-to-one constraint), so the order workflow's customer lookup for that
user succeeds; and — unconditionally, for every database state — saving an
already-existing user leaves the customer table untouched. -/
theorem createUser_creates_one_customer (db : DB) (user_id : Nat) :
    (db.customers.countP (fun c => c.user_id == user_id) = 0 →
      (createUser db user_id).customers.countP (fun c => c.user_id == user_id) = 1 ∧
      ((createUser db user_id).customers.find?
        (fun c => c.user_id == user_id)).isSome = true) ∧
    (updateUser db user_id).customers = db.customers := by
  refine ⟨?_, rfl⟩
  intro hfresh
  constructor
  · show (db.customers ++ [(⟨db.nextCustomerId, user_id⟩ : CustomerRow)]).countP
        (fun c => c.user_id == user_id) = 1
    rw [List.countP_append, hfresh]
    simp
  · have hx : (⟨db.nextCustomerId, user_id⟩ : CustomerRow) ∈
        (createUser db user_id).customers := by
      show _ ∈ db.customers ++ [_]
      exact List.mem_append_right _ (List.mem_cons_self _ _)
    exact List.find?_isSome.mpr ⟨⟨db.nextCustomerId, user_id⟩, hx, by simp⟩

/-- Witness for C10: creating user 7 in the empty database yields exactly one
linked customer, and re-saving user 1 in `dbSample` — where user 1 already
has customer 1 — leaves the customer table untouched. -/
theorem createUser_creates_one_customer_witness :
    ((createUser emptyDB 7).customers.countP (fun c => c.user_id == 7) = 1 ∧
      ((createUser emptyDB 7).customers.find?
        (fun c => c.user_id == 7)).isSome = true) ∧
    (updateUser dbSample 1).customers = dbSample.customers :=
  ⟨(createUser_creates_one_customer emptyDB 7).1 rfl,
   (createUser_creates_one_customer dbSample 1).2⟩

/-- **C9.** `get_tags_for` returns exactly the tagged items of the entity
identified by `(content_type, object_id)`: every returned element is a
tagged-item row of that entity carrying its eagerly joined tag (which
exists in the tag table, under referential integrity of `tag_id`), and every
tagged-item row of that entity occurs in the result. -/
theorem get_tags_for_spec (db : TagsDB) (content_type object_id : Nat)
    (hwf : ∀ ti ∈ db.taggedItems,
      (db.tags.find? (fun t => t.id == ti.tag_id)).isSome = true) :
    (∀ x ∈ get_tags_for db content_type object_id,
        x.1 ∈ db.taggedItems ∧ x.1.content_type = content_type ∧
        x.1.object_id = object_id ∧
        ∃ t, x.2 = some t ∧ t ∈ db.tags ∧ t.id = x.1.tag_id) ∧
    (∀ ti ∈ db.taggedItems, ti.content_type = content_type →
        ti.object_id = object_id →
        ∃ x ∈ get_tags_for db content_type object_id, x.1 = ti) := by
  constructor
  · intro x hx
    unfold get_tags_for at hx
    obtain ⟨ti, hti, hxeq⟩ := List.mem_map.mp hx
    subst hxeq
    obtain ⟨htimem, hpred⟩ := List.mem_filter.mp hti
    simp only [Bool.and_eq_true, beq_iff_eq] at hpred
    refine ⟨htimem, hpred.1, hpred.2, ?_⟩
    obtain ⟨t, ht⟩ := Option.isSome_iff_exists.mp (hwf ti htimem)
    exact ⟨t, ht, List.mem_of_find?_eq_some ht,
      by simpa using List.find?_some ht⟩
  · intro ti hti h1 h2
    refine ⟨(ti, db.tags.find? (fun t => t.id == ti.tag_id)), ?_, rfl⟩
    exact List.mem_map.mpr ⟨ti, List.mem_filter.mpr ⟨hti, by simp [h1, h2]⟩, rfl⟩

/-- Tagging tables with one tag applied to entity `(3, 9)`. -/
def tagsSample : TagsDB :=
  ⟨[⟨1, "django"⟩], [⟨1, 1, 3, 9⟩]⟩

/-- Witness for C9: on `tagsSample`, the query for entity `(3, 9)` returns
exactly its tagged item joined with its tag. -/
theorem get_tags_for_spec_witness :
    get_tags_for tagsSample 3 9 = [(⟨1, 1, 3, 9⟩, some ⟨1, "django"⟩)] ∧
    (⟨1, 1, 3, 9⟩ : TaggedItemRow) ∈ tagsSample.taggedItems := by
  have h := get_tags_for_spec tagsSample 3 9 (by decide)
  exact ⟨rfl, (h.1 (⟨1, 1, 3, 9⟩, some ⟨1, "django"⟩) (by decide)).1⟩

/-! ### Order-placement success path -/

/-- When every cart item's product resolves, the order-item construction
succeeds, copies each `(product, quantity)` pair in order, and snapshots
each product's current `unit_price`. -/
theorem buildOrderItems_ok (prods : List ProductRow) (oid : Nat)
    (items : List CartItemRow)
    (h : ∀ ci ∈ items, (prods.find? (fun p => p.id == ci.product_id)).isSome = true) :
    ∃ l, buildOrderItems prods oid items = .ok l ∧
      l.map (fun oi => (oi.product_id, oi.quantity)) =
        items.map (fun ci => (ci.product_id, ci.quantity)) ∧
      ∀ oi ∈ l, oi.order_id = oid ∧
        ∃ p, prods.find? (fun q => q.id == oi.product_id) = some p ∧
          oi.unit_price = p.unit_price := by
  induction items with
  | nil =>
    refine ⟨[], rfl, rfl, ?_⟩
    intro oi hoi
    cases hoi
  | cons ci rest ih =>
    obtain ⟨p, hp⟩ := Option.isSome_iff_exists.mp (h ci (List.mem_cons_self ci rest))
    obtain ⟨tail, htail, hmap, hprops⟩ :=
      ih (fun x hx => h x (List.mem_cons_of_mem _ hx))
    refine ⟨⟨oid, ci.product_id, ci.quantity, p.unit_price⟩ :: tail, ?_, ?_, ?_⟩
    · unfold buildOrderItems
      rw [hp, htail]
    · simp [hmap]
    · intro oi hoi
      rcases List.mem_cons.mp hoi with heq | hmem
      · subst heq
        exact ⟨rfl, p, hp, rfl⟩
      · exact hprops oi hmem

/-- Filtering the concatenation of the old order items (none of which carry
the fresh order id) with the new order items (all of which do) by the fresh
order id returns exactly the new items. -/
theorem filter_append_new (old l : List OrderItemRow) (oid : Nat)
    (hfresh : ∀ oi ∈ old, oi.order_id ≠ oid)
    (hl : ∀ oi ∈ l, oi.order_id = oid) :
    (old ++ l).filter (fun oi => oi.order_id == oid) = l := by
  rw [List.filter_append,
    List.filter_eq_nil_iff.mpr (fun a ha => by simpa using hfresh a ha),
    List.filter_eq_self.mpr (fun a ha => by simpa using hl a ha),
    List.nil_append]

/-- The success path of `createOrder`: when validation passes, the customer
resolves and the order-item construction succeeds, the final database state
appends the new order and order items, removes the cart and its items, and
advances the order-id sequence. -/
theorem createOrder_success (db : DB) (user_id cart_id : Nat) (cust : CustomerRow)
    (newItems : List OrderItemRow)
    (hcart : cart_id ∈ db.carts)
    (hne : db.cartItems.countP (fun ci => ci.cart_id == cart_id) ≠ 0)
    (hcust : db.customers.find? (fun c => c.user_id == user_id) = some cust)
    (hbuild : buildOrderItems db.products db.nextOrderId
        (db.cartItems.filter (fun ci => ci.cart_id == cart_id)) = .ok newItems) :
    createOrder none db user_id cart_id =
      ({ db with
          orders := db.orders ++ [⟨db.nextOrderId, cust.id, .pending⟩],
          carts := db.carts.filter (fun c => c != cart_id),
          cartItems := db.cartItems.filter (fun ci => ci.cart_id != cart_id),
          orderItems := db.orderItems ++ newItems,
          nextOrderId := db.nextOrderId + 1 },
        .ok db.nextOrderId) := by
  have hv : validate_cart_id db cart_id = none := by
    simp [validate_cart_id, hcart, hne]
  unfold createOrder
  rw [hv]
  unfold runAtomic createOrderBody
  rw [hcust]
  simp only [hbuild]
  rfl

/-- **C1.** For every cart containing at least one cart item (with resolvable
products, a resolvable customer, and a fresh order id, as the database
enforces), order placement succeeds and returns a new order whose order
items' `(product, quantity)` multiset equals the cart items' multiset, and
the cart — together with its cart items — no longer exists afterwards. -/
theorem createOrder_items_multiset_and_cart_deleted (db : DB)
    (user_id cart_id : Nat) (cust : CustomerRow)
    (hcart : cart_id ∈ db.carts)
    (hne : db.cartItems.countP (fun ci => ci.cart_id == cart_id) ≠ 0)
    (hcust : db.customers.find? (fun c => c.user_id == user_id) = some cust)
    (hprod : ∀ ci ∈ db.cartItems, ci.cart_id = cart_id →
      (db.products.find? (fun p => p.id == ci.product_id)).isSome = true)
    (hfresh : ∀ oi ∈ db.orderItems, oi.order_id ≠ db.nextOrderId) :
    ∃ db2, createOrder none db user_id cart_id = (db2, .ok db.nextOrderId) ∧
      (↑((db2.orderItems.filter (fun oi => oi.order_id == db.nextOrderId)).map
          (fun oi => (oi.product_id, oi.quantity))) : Multiset (Nat × Nat)) =
        (↑((db.cartItems.filter (fun ci => ci.cart_id == cart_id)).map
          (fun ci => (ci.product_id, ci.quantity))) : Multiset (Nat × Nat)) ∧
      cart_id ∉ db2.carts ∧
      db2.cartItems.filter (fun ci => ci.cart_id == cart_id) = [] := by
  obtain ⟨l, hbuild, hmap, hprops⟩ := buildOrderItems_ok db.products db.nextOrderId
    (db.cartItems.filter (fun ci => ci.cart_id == cart_id))
    (fun ci hci => by
      have hm := List.mem_filter.mp hci
      exact hprod ci hm.1 (by simpa using hm.2))
  refine ⟨_, createOrder_success db user_id cart_id cust l hcart hne hcust hbuild,
    ?_, ?_, ?_⟩
  · show (↑(((db.orderItems ++ l).filter
        (fun oi => oi.order_id == db.nextOrderId)).map
        (fun oi => (oi.product_id, oi.quantity))) : Multiset (Nat × Nat)) = _
    rw [filter_append_new db.orderItems l db.nextOrderId hfresh
      (fun oi hoi => (hprops oi hoi).1), hmap]
  · show cart_id ∉ db.carts.filter (fun c => c != cart_id)
    intro hmem2
    have := (List.mem_filter.mp hmem2).2
    simp at this
  · show (db.cartItems.filter (fun ci => ci.cart_id != cart_id)).filter
        (fun ci => ci.cart_id == cart_id) = []
    rw [List.filter_filter]
    refine List.filter_eq_nil_iff.mpr ?_
    intro a _
    simp

/-- Witness for C1 on `dbSample`: cart 5 (2 units of product 1, 1 unit of
product 2) converts into order 1 with the same `(product, quantity)`
multiset, and the cart is gone. -/
theorem createOrder_items_multiset_and_cart_deleted_witness :
    ∃ db2, createOrder none dbSample 1 5 = (db2, .ok dbSample.nextOrderId) ∧
      (↑((db2.orderItems.filter (fun oi => oi.order_id == dbSample.nextOrderId)).map
          (fun oi => (oi.product_id, oi.quantity))) : Multiset (Nat × Nat)) =
        (↑((dbSample.cartItems.filter (fun ci => ci.cart_id == 5)).map
          (fun ci => (ci.product_id, ci.quantity))) : Multiset (Nat × Nat)) ∧
      (5 : Nat) ∉ db2.carts ∧
      db2.cartItems.filter (fun ci => ci.cart_id == 5) = [] :=
  createOrder_items_multiset_and_cart_deleted dbSample 1 5 ⟨1, 1⟩
    (by decide) (by decide) rfl (by decide) (by decide)

/-- **C4.** Every order item created by a successful order placement stores
as `unit_price` the referenced product's `unit_price` as it was in the
database at the moment of placement, and a later product-price update — which
touches only the product table — leaves the stored order items (hence their
`unit_price` values) unchanged. -/
theorem orderItem_unit_price_snapshot (db : DB)
    (user_id cart_id : Nat) (cust : CustomerRow)
    (hcart : cart_id ∈ db.carts)
    (hne : db.cartItems.countP (fun ci => ci.cart_id == cart_id) ≠ 0)
    (hcust : db.customers.find? (fun c => c.user_id == user_id) = some cust)
    (hprod : ∀ ci ∈ db.cartItems, ci.cart_id = cart_id →
      (db.products.find? (fun p => p.id == ci.product_id)).isSome = true)
    (hfresh : ∀ oi ∈ db.orderItems, oi.order_id ≠ db.nextOrderId) :
    ∃ db2, createOrder none db user_id cart_id = (db2, .ok db.nextOrderId) ∧
      (∀ oi ∈ db2.orderItems.filter (fun oi => oi.order_id == db.nextOrderId),
        ∃ p, db.products.find? (fun q => q.id == oi.product_id) = some p ∧
          oi.unit_price = p.unit_price) ∧
      ∀ pid newPrice,
        (updateProductPrice db2 pid newPrice).orderItems = db2.orderItems := by
  obtain ⟨l, hbuild, hmap, hprops⟩ := buildOrderItems_ok db.products db.nextOrderId
    (db.cartItems.filter (fun ci => ci.cart_id == cart_id))
    (fun ci hci => by
      have hm := List.mem_filter.mp hci
      exact hprod ci hm.1 (by simpa using hm.2))
  refine ⟨_, createOrder_success db user_id cart_id cust l hcart hne hcust hbuild,
    ?_, ?_⟩
  · intro oi hoi
    have hoi2 : oi ∈ (db.orderItems ++ l).filter
        (fun oi => oi.order_id == db.nextOrderId) := hoi
    rw [filter_append_new db.orderItems l db.nextOrderId hfresh
      (fun x hx => (hprops x hx).1)] at hoi2
    exact (hprops oi hoi2).2
  · intro pid newPrice
    rfl

/-- Witness for C4 on `dbSample`: the order items of order 1 snapshot the
prices `10.00` and `5.00`, and a product-price update leaves them intact. -/
theorem orderItem_unit_price_snapshot_witness :
    ∃ db2, createOrder none dbSample 1 5 = (db2, .ok dbSample.nextOrderId) ∧
      (∀ oi ∈ db2.orderItems.filter (fun oi => oi.order_id == dbSample.nextOrderId),
        ∃ p, dbSample.products.find? (fun q => q.id == oi.product_id) = some p ∧
          oi.unit_price = p.unit_price) ∧
      ∀ pid newPrice,
        (updateProductPrice db2 pid newPrice).orderItems = db2.orderItems :=
  orderItem_unit_price_snapshot dbSample 1 5 ⟨1, 1⟩
    (by decide) (by decide) rfl (by decide) (by decide)
